import Mathlib

/-!
Verification of the format-handler conversion core of this repository
(three handlers: the HEIC/HEIF image handler, the ANI cursor handler and
the meyda audio-analysis handler), shallowly embedded in Lean 4.

Byte buffers (`Uint8Array`) are modelled as `List Nat`; thrown JS errors
are modelled as `Except String`; the external collaborators (the
`heic2any` library, `createImageBitmap`, canvas `toBlob`,
`AudioContext.decodeAudioData`, the Meyda DSP library and the
`canPlayType` probe) are modelled as explicit environment records of
functions, exactly at the call boundaries the source uses.
-/

/-- A capability descriptor, from `FormatHandler.ts`'s `FileFormat`.
The `category` and `lossless` fields are optional in the source (the
meyda handler's descriptors omit both), hence `Option` here. -/
structure FileFormat where
  name : String
  format : String
  extension : String
  mime : String
  «from» : Bool
  «to» : Bool
  internal : String
  category : Option String
  lossless : Option Bool
deriving DecidableEq

/-- A file record: a name and an opaque byte payload. -/
structure FileData where
  name : String
  bytes : List Nat
deriving DecidableEq

/-- A JS `Blob`: bytes plus a mime type tag. -/
structure Blob where
  bytes : List Nat
  type : String
deriving DecidableEq

/-- A decoded `ImageBitmap` (contents opaque to the handler). -/
structure ImageBitmap where
  width : Nat
  height : Nat
  data : List Nat
deriving DecidableEq

/-- External collaborators used by the HEIC handler: the `heic2any`
decode library (returns one blob or an array of blobs, or throws), the
`createImageBitmap` decode path, the 2D-canvas-context acquisition, and
the canvas `toBlob` encode capability (drawing the bitmap on a canvas of
the bitmap's dimensions and encoding it; `none` models the host
declining, i.e. `toBlob` resolving with `null`). -/
structure HeicEnv where
  heic2any : Blob → String → ℚ → Except String (Blob ⊕ List Blob)
  createImageBitmap : Blob → Except String ImageBitmap
  getContext2d : Option Unit
  toBlob : ImageBitmap → String → ℚ → Option Blob

/-- The HEIC handler's own state: `name` and `ready` fields plus its
declared capability list (built in the source by `CommonFormats`
builders; no claim inspects its contents). -/
structure HEICHandler where
  name : String
  ready : Bool
  supportedFormats : List FileFormat
deriving DecidableEq

/-- `init` of the HEIC handler: only sets `ready` to `true`. -/
def heicInit (self : HEICHandler) : HEICHandler :=
  { self with ready := true }

/-- The branch-classification test of `doConvert` in `heic.ts`:
`internal === "heic" || internal === "heif"`. -/
def isHeicKey (s : String) : Bool :=
  s == "heic" || s == "heif"

/-- `String.padStart(3, "0")` from JS: left-pad with zeros to width at
least 3 (longer strings are unchanged). -/
def padStart3 (s : String) : String :=
  if s.length ≥ 3 then s else String.mk (List.replicate (3 - s.length) '0' ++ s.data)

/-- Character-wise lowercasing (JS case-insensitive regex matching,
restricted to the ASCII extensions involved here). -/
def strToLower (s : String) : String :=
  String.mk (s.data.map Char.toLower)

/-- The regex replace `name.replace(/\.(heic|heif)$/i, "")`: strips one
trailing `.heic`/`.heif` extension, case-insensitively; any other name
(interior dots included) is untouched. -/
def stripHeicExt (s : String) : String :=
  if ".heic".data.isSuffixOf (strToLower s).data || ".heif".data.isSuffixOf (strToLower s).data then
    String.mk (s.data.take (s.data.length - 5))
  else s

/-- The regex replace `name.replace(/\.[^.]+$/, "")`: strips the last
dot and everything after it, provided at least one character follows the
last dot; otherwise the name is unchanged. -/
def stripLastExt (s : String) : String :=
  match s.data.reverse.findIdx? (fun c => c = '.') with
  | none => s
  | some i => if i = 0 then s else String.mk (s.data.take (s.data.length - i - 1))

/-- `heic2any` returns `Blob | Blob[]`; the source normalises with
`Array.isArray(result) ? result : [result]`. -/
def heicResultBlobs : Blob ⊕ List Blob → List Blob
  | Sum.inl b => [b]
  | Sum.inr bs => bs

/-- One iteration of the decode loop of `#decodeHeic`: submit the file's
bytes to `heic2any` at quality 0.92, wrap failures with the file's name,
then apply the fan-out naming rule (single buffer: `<base>.<ext>`;
several: `<base>_<NNN>.<ext>` with `NNN = padStart3 (i+1)`). -/
def decodeOneHeic (env : HeicEnv) (inputFormat outputFormat : FileFormat)
    (inputFile : FileData) : Except String (List FileData) :=
  match env.heic2any { bytes := inputFile.bytes, type := inputFormat.mime }
      outputFormat.mime (92 / 100) with
  | Except.error e =>
      Except.error ("Could not decode HEIC/HEIF file \"" ++ inputFile.name ++ "\": " ++ e)
  | Except.ok result =>
      let blobs := heicResultBlobs result
      let baseName := stripHeicExt inputFile.name
      if blobs.length = 1 then
        Except.ok (blobs.map fun b =>
          { name := baseName ++ "." ++ outputFormat.extension, bytes := b.bytes })
      else
        Except.ok (blobs.enum.map fun p =>
          { name := baseName ++ "_" ++ padStart3 (toString (p.1 + 1)) ++ "." ++ outputFormat.extension,
            bytes := p.2.bytes })

/-- The decode branch `#decodeHeic`: the per-file loop, accumulating
outputs in order; the first thrown error aborts the whole batch. -/
def decodeHeic (env : HeicEnv) (inputFiles : List FileData)
    (inputFormat outputFormat : FileFormat) : Except String (List FileData) :=
  match inputFiles with
  | [] => Except.ok []
  | f :: rest => do
      let outs ← decodeOneHeic env inputFormat outputFormat f
      let more ← decodeHeic env rest inputFormat outputFormat
      pure (outs ++ more)

/-- The error message thrown by `#encodeHeic` when canvas `toBlob`
resolves with `null`. -/
def heicEncodeUnsupportedMsg : String :=
  "HEIC/HEIF encoding is not supported in this browser. Native encoding requires Safari on macOS (High Sierra or later) or iOS (11 or later). Consider converting to PNG or JPEG instead."

/-- One iteration of the encode loop of `#encodeHeic`: decode the source
via `createImageBitmap` (wrapping failures with the file name), obtain a
2D context (or throw), render through canvas `toBlob` at quality 0.92
(throwing the descriptive unsupported-message when the host declines),
and name the output `<base>.<ext>` with the last extension stripped. -/
def encodeOneHeic (env : HeicEnv) (inputFormat outputFormat : FileFormat)
    (inputFile : FileData) : Except String FileData :=
  match env.createImageBitmap { bytes := inputFile.bytes, type := inputFormat.mime } with
  | Except.error e =>
      Except.error ("Could not decode source image \"" ++ inputFile.name ++ "\": " ++ e)
  | Except.ok bitmap =>
      match env.getContext2d with
      | none => Except.error "Failed to obtain 2D canvas context."
      | some _ =>
          match env.toBlob bitmap outputFormat.mime (92 / 100) with
          | none => Except.error heicEncodeUnsupportedMsg
          | some outputBlob =>
              Except.ok { name := stripLastExt inputFile.name ++ "." ++ outputFormat.extension,
                          bytes := outputBlob.bytes }

/-- The encode branch `#encodeHeic`: sequential per-file loop. -/
def encodeHeic (env : HeicEnv) (inputFiles : List FileData)
    (inputFormat outputFormat : FileFormat) : Except String (List FileData) :=
  match inputFiles with
  | [] => Except.ok []
  | f :: rest => do
      let one ← encodeOneHeic env inputFormat outputFormat f
      let more ← encodeHeic env rest inputFormat outputFormat
      pure (one :: more)

/-- `doConvert` of `heic.ts`: classify the pair by `internal` key into
decode / encode / catch-all copy. Note the final branch (commented in
the source as the HEIC-to-HEIC passthrough) fires for EVERY pair that is
neither decode nor encode, and returns each input's bytes copied with
the input's own name unchanged. The handler state `self` is taken as an
argument (the method's `this`) but — faithfully to the source — never
consulted: in particular `self.ready` is not checked. -/
def HEICHandler.doConvert (_self : HEICHandler) (env : HeicEnv)
    (inputFiles : List FileData) (inputFormat outputFormat : FileFormat) :
    Except String (List FileData) :=
  if isHeicKey inputFormat.internal && !(isHeicKey outputFormat.internal) then
    decodeHeic env inputFiles inputFormat outputFormat
  else if !(isHeicKey inputFormat.internal) && isHeicKey outputFormat.internal then
    encodeHeic env inputFiles inputFormat outputFormat
  else
    Except.ok (inputFiles.map fun f => { name := f.name, bytes := f.bytes })

/-! ### The ANI handler (`ani.ts`) -/

/-- Modelled from the spec: `CommonFormats.ts` is not under `src/`; the
descriptor built by `CommonFormats.PNG.supported("apng", true, true)` is
modelled as the standard PNG descriptor re-keyed to internal `apng` with
both directions enabled. -/
def apngFormat : FileFormat :=
  { name := "Portable Network Graphics", format := "png", extension := "png",
    mime := "image/png", «from» := true, «to» := true, internal := "apng",
    category := some "image", lossless := some true }

/-- The ICO descriptor literal of `ani.ts`. -/
def icoFormat : FileFormat :=
  { name := "Microsoft Windows ICO", format := "ico", extension := "ico",
    mime := "image/vnd.microsoft.icon", «from» := true, «to» := true, internal := "ico",
    category := some "image", lossless := some false }

/-- The ANI descriptor literal of `ani.ts` (note it shares the internal
key `ico` with the ICO descriptor). -/
def aniFormat : FileFormat :=
  { name := "Microsoft Windows ANI", format := "ani", extension := "ani",
    mime := "application/x-navi-animation", «from» := true, «to» := true, internal := "ico",
    category := some "image", lossless := some false }

/-- The capability list assigned by `aniHandler.init`. -/
def aniFormats : List FileFormat := [apngFormat, icoFormat, aniFormat]

/-- The ANI handler's mutable state: `supportedFormats?` is optional
(undefined before probing) and `ready` starts false. -/
structure AniState where
  supportedFormats : Option (List FileFormat)
  ready : Bool
deriving DecidableEq

/-- `aniHandler.init`: assigns (not appends) the fixed capability list
and sets `ready`; it reads nothing from the previous state. -/
def aniInit (_s : AniState) : AniState :=
  { supportedFormats := some aniFormats, ready := true }

/-- `aniHandler.doConvert`: returns the empty output list immediately
(`return outputFiles;` on the first statements); everything after that
`return` — the four conversion branches and the classification throw —
is unreachable dead code. The state and formats are accepted and
ignored, as in the source. -/
def aniDoConvert (_s : AniState) (_inputFiles : List FileData)
    (_inputFormat _outputFormat : FileFormat) : Except String (List FileData) :=
  Except.ok []

/-! ### The meyda audio-analysis handler -/

/-- A decoded `AudioBuffer`: sample rate and the first channel's
samples. Float32 sample values are modelled as exact rationals. -/
structure AudioData where
  sampleRate : Nat
  channel0 : List ℚ

/-- The canvas contents built by the meyda conversion loop: the canvas
dimensions plus the pixel column written for each window, in order. -/
structure CanvasData where
  width : Nat
  height : Nat
  columns : List (List Nat)
deriving DecidableEq

/-- External collaborators of the meyda handler: `canPlayType` (its
truthiness), 2D-context acquisition, `decodeAudioData`, the Meyda
library pipeline (`Meyda.windowing` with a hanning window followed by
`Meyda.extract "amplitudeSpectrum"`; `none` models the extracted value
not being a `Float32Array`), and canvas `toBlob` (called without a
quality argument; `none` models a `null` blob). -/
structure MeydaEnv where
  canPlay : String → Bool
  getContext2d : Option Unit
  decodeAudioData : List Nat → Except String AudioData
  spectrumOf : List ℚ → Option (List ℚ)
  toBlob : CanvasData → String → Option (List Nat)

/-- The three statically declared image output descriptors of the meyda
handler (verbatim field values from the source; `category`/`lossless`
are omitted there). -/
def meydaPngFormat : FileFormat :=
  { name := "Portable Network Graphics", format := "png", extension := "png",
    mime := "image/png", «from» := false, «to» := true, internal := "png",
    category := none, lossless := none }

/-- The JPEG output descriptor of the meyda handler. -/
def meydaJpegFormat : FileFormat :=
  { name := "Joint Photographic Experts Group JFIF", format := "jpeg", extension := "jpg",
    mime := "image/jpeg", «from» := false, «to» := true, internal := "jpeg",
    category := none, lossless := none }

/-- The WebP output descriptor of the meyda handler. -/
def meydaWebpFormat : FileFormat :=
  { name := "WebP", format := "webp", extension := "webp",
    mime := "image/webp", «from» := false, «to» := true, internal := "webp",
    category := none, lossless := none }

/-- The WAV input descriptor, appended by `init` when the runtime can
play `audio/wav`. -/
def wavFormat : FileFormat :=
  { name := "Waveform Audio File Format", format := "wav", extension := "wav",
    mime := "audio/wav", «from» := true, «to» := false, internal := "wav",
    category := none, lossless := none }

/-- The MP3 input descriptor, appended when `audio/mpeg` is playable. -/
def mp3Format : FileFormat :=
  { name := "MP3 Audio", format := "mp3", extension := "mp3",
    mime := "audio/mpeg", «from» := true, «to» := false, internal := "mp3",
    category := none, lossless := none }

/-- The Ogg input descriptor, appended when `audio/ogg` is playable. -/
def oggFormat : FileFormat :=
  { name := "Ogg Audio", format := "ogg", extension := "ogg",
    mime := "audio/ogg", «from» := true, «to» := false, internal := "ogg",
    category := none, lossless := none }

/-- The FLAC input descriptor, appended when `audio/flac` is playable. -/
def flacFormat : FileFormat :=
  { name := "Free Lossless Audio Codec", format := "flac", extension := "flac",
    mime := "audio/flac", «from» := true, «to» := false, internal := "flac",
    category := none, lossless := none }

/-- The static capability list the meyda handler is constructed with. -/
def meydaStaticFormats : List FileFormat :=
  [meydaPngFormat, meydaJpegFormat, meydaWebpFormat]

/-- The meyda handler's mutable state: capability list, readiness flag,
and the three private resources (`#audioContext`, `#canvas`, `#ctx`),
present or not. -/
structure MeydaState where
  supportedFormats : List FileFormat
  ready : Bool
  audioContext : Option Unit
  canvas : Option Unit
  ctx : Option Unit
deriving DecidableEq

/-- The meyda handler's state at construction. -/
def meydaInitialState : MeydaState :=
  { supportedFormats := meydaStaticFormats, ready := false,
    audioContext := none, canvas := none, ctx := none }

/-- The audio descriptors `init` pushes, in source order, each gated on
its `canPlayType` probe. -/
def meydaProbedAudio (env : MeydaEnv) : List FileFormat :=
  (if env.canPlay "audio/wav" then [wavFormat] else [])
    ++ ((if env.canPlay "audio/mpeg" then [mp3Format] else [])
    ++ ((if env.canPlay "audio/ogg" then [oggFormat] else [])
    ++ (if env.canPlay "audio/flac" then [flacFormat] else [])))

/-- `meydaHandler.init`: appends the playable audio descriptors to the
capability list (no guard against running twice), acquires the audio
context and canvas, then the 2D context — throwing
"Failed to create 2D rendering context." when the latter is `null`, in
which case the already-performed appends stick but `ready` stays false —
and finally sets `ready`. Returns the updated state plus the thrown
message, if any. -/
def meydaInit (env : MeydaEnv) (s : MeydaState) : MeydaState × Option String :=
  let s1 : MeydaState :=
    { s with supportedFormats := s.supportedFormats ++ meydaProbedAudio env,
             audioContext := some () }
  match env.getContext2d with
  | none => ({ s1 with canvas := some () }, some "Failed to create 2D rendering context.")
  | some u => ({ s1 with canvas := some (), ctx := some u, ready := true }, none)

/-- The four RGBA bytes written for one spectrum value `q`:
`int = Math.floor(q * 16777215)` followed by JS `int & 0xFF`,
`(int >> 8) & 0xFF`, `(int >> 16) & 0xFF` (32-bit two's-complement
semantics, hence the reduction mod 2^32) and alpha 255. -/
def jsPixelBytes (q : ℚ) : List Nat :=
  let n : Int := Int.floor (q * 16777215)
  let m : Nat := (n % (2 ^ 32 : Int)).toNat
  [m % 256, m / 256 % 256, m / 65536 % 256, 255]

/-- The pixel column written for one window's amplitude spectrum. -/
def pixelColumn (spectrum : List ℚ) : List Nat :=
  spectrum.flatMap jsPixelBytes

/-- The per-file analysis loop: frame the samples into windows of
`Meyda.bufferSize = 2048` (`imageWidth = floor(samples.length / 2048)`
windows, canvas height `2048 / 2`), extract each window's spectrum
(throwing "Failed to extract audio features!" when the library does not
return a `Float32Array`), and collect the pixel columns. -/
def meydaCanvas (env : MeydaEnv) (samples : List ℚ) : Except String CanvasData :=
  match (List.range (samples.length / 2048)).mapM (fun i =>
      match env.spectrumOf ((samples.drop (i * 2048)).take 2048) with
      | none => Except.error "Failed to extract audio features!"
      | some spectrum => Except.ok (pixelColumn spectrum)) with
  | Except.error e => Except.error e
  | Except.ok cols => Except.ok { width := samples.length / 2048, height := 2048 / 2, columns := cols }

/-- JS `name.split(".")[0]`: the characters of the name before its FIRST
dot (splitting on every dot and keeping only the head element). -/
def jsSplitDotHead (s : String) : String :=
  String.mk (s.data.takeWhile (fun c => c ≠ '.'))

/-- One iteration of `meydaHandler.doConvert`'s file loop: decode the
bytes (a rejection propagates RAW — the thrown value is not wrapped and
carries no file name), run the analysis loop, encode the canvas
(rejecting with "Canvas output failed." when the blob is `null`), and
name the output `name.split(".")[0] + "." + extension` — everything
after the FIRST dot of the input name is discarded. -/
def meydaConvertOne (env : MeydaEnv) (outputFormat : FileFormat)
    (inputFile : FileData) : Except String FileData :=
  match env.decodeAudioData inputFile.bytes with
  | Except.error e => Except.error e
  | Except.ok audioData =>
      match meydaCanvas env audioData.channel0 with
      | Except.error e => Except.error e
      | Except.ok canvas =>
          match env.toBlob canvas outputFormat.mime with
          | none => Except.error "Canvas output failed."
          | some bytes =>
              Except.ok { name := jsSplitDotHead inputFile.name ++ "." ++ outputFormat.extension,
                          bytes := bytes }

/-- The sequential file loop of `meydaHandler.doConvert`. -/
def meydaConvertAll (env : MeydaEnv) (outputFormat : FileFormat) :
    List FileData → Except String (List FileData)
  | [] => Except.ok []
  | f :: rest => do
      let out ← meydaConvertOne env outputFormat f
      let more ← meydaConvertAll env outputFormat rest
      pure (out :: more)

/-- `meydaHandler.doConvert`: throws "Handler not initialized!" unless
`ready` is set and all three private resources are present, then runs
the file loop (the input format argument is ignored by the source). -/
def meydaDoConvert (env : MeydaEnv) (s : MeydaState) (inputFiles : List FileData)
    (_inputFormat outputFormat : FileFormat) : Except String (List FileData) :=
  if !s.ready || s.audioContext.isNone || s.canvas.isNone || s.ctx.isNone then
    Except.error "Handler not initialized!"
  else
    meydaConvertAll env outputFormat inputFiles

/-! ### Concrete descriptors and environments used in counterexamples
and witnesses -/

/-- A HEIC descriptor as the dispatcher would pass it. -/
def heicFmt : FileFormat :=
  { name := "HEIC", format := "heic", extension := "heic", mime := "image/heic",
    «from» := true, «to» := true, internal := "heic", category := some "image",
    lossless := some false }

/-- A HEIF descriptor (same native family as HEIC, different extension). -/
def heifFmt : FileFormat :=
  { name := "HEIF", format := "heif", extension := "heif", mime := "image/heif",
    «from» := true, «to» := true, internal := "heif", category := some "image",
    lossless := some false }

/-- A PNG descriptor for the HEIC handler's non-native side. -/
def pngFmt : FileFormat :=
  { name := "PNG", format := "png", extension := "png", mime := "image/png",
    «from» := true, «to» := true, internal := "png", category := some "image",
    lossless := some true }

/-- A JPEG descriptor for the HEIC handler's non-native side. -/
def jpegFmt : FileFormat :=
  { name := "JPEG", format := "jpeg", extension := "jpeg", mime := "image/jpeg",
    «from» := true, «to» := true, internal := "jpeg", category := some "image",
    lossless := some false }

/-- A HEIC-handler environment whose external capabilities are never
consulted successfully (used where the branch under test does not call
them). -/
def heicStubEnv : HeicEnv :=
  { heic2any := fun _ _ _ => Except.error "unused",
    createImageBitmap := fun _ => Except.error "unused",
    getContext2d := none,
    toBlob := fun _ _ _ => none }

/-- A meyda environment whose capabilities are never consulted. -/
def meydaStubEnv : MeydaEnv :=
  { canPlay := fun _ => false, getContext2d := none,
    decodeAudioData := fun _ => Except.error "unused",
    spectrumOf := fun _ => none, toBlob := fun _ _ => none }

/-- The meyda handler's state after a successful probe (readiness set,
all three private resources present). -/
def meydaReadyState : MeydaState :=
  { supportedFormats := meydaStaticFormats, ready := true,
    audioContext := some (), canvas := some (), ctx := some () }

/-! ### Claim C10 -/

/-- C10: the ANI conversion unit's convert operation returns the empty
output list for every batch and every format pair, never producing an
output record and never raising an error. -/
theorem C10_ani_returns_empty (s : AniState) (files : List FileData)
    (inF outF : FileFormat) : aniDoConvert s files inF outF = Except.ok [] := rfl

/-! ### Claim C1 -/

/-- C1 counterexample: on a heic-to-heif passthrough the handler returns
the payload byte-identically but KEEPS the input's name `photo.heic`; the
name is not re-tagged to the output descriptor's `heif` extension as the
claim states. -/
theorem C1_counterexample :
    HEICHandler.doConvert { name := "heic2any", ready := true, supportedFormats := [] }
        heicStubEnv [{ name := "photo.heic", bytes := [1, 2, 3] }] heicFmt heifFmt
      = Except.ok [{ name := "photo.heic", bytes := [1, 2, 3] }]
    ∧ ¬ (("." ++ heifFmt.extension).data <:+ "photo.heic".data) := by
  exact ⟨rfl, by decide⟩

/-- C1 (amended): whenever the input and output internal keys both
belong to the native heic/heif family, `doConvert` returns, for each
input file, a byte-identical copy of its payload with the input's
name/extension metadata unchanged, without invoking any external codec
(the result is the same for every environment). -/
theorem C1_passthrough (self : HEICHandler) (env : HeicEnv) (files : List FileData)
    (inF outF : FileFormat)
    (hi : isHeicKey inF.internal = true) (ho : isHeicKey outF.internal = true) :
    self.doConvert env files inF outF
      = Except.ok (files.map fun f => { name := f.name, bytes := f.bytes }) := by
  simp [HEICHandler.doConvert, hi, ho]

/-- C1 witness: the amended passthrough theorem applied at a concrete
heic-to-heif request. -/
theorem C1_passthrough_witness :
    HEICHandler.doConvert { name := "heic2any", ready := true, supportedFormats := [] }
        heicStubEnv [{ name := "pic.heic", bytes := [7, 8] }] heicFmt heifFmt
      = Except.ok [{ name := "pic.heic", bytes := [7, 8] }] := by
  have h := C1_passthrough { name := "heic2any", ready := true, supportedFormats := [] }
    heicStubEnv [{ name := "pic.heic", bytes := [7, 8] }] heicFmt heifFmt rfl rfl
  simpa using h

/-! ### Claim C2 -/

/-- C2: evaluation of the code at the failing input. A png-to-jpeg pair
matches none of the three branch conditions (neither side is native to
the HEIC unit), yet `doConvert` returns a copied output batch through the
catch-all branch instead of failing with a classification error; the ANI
handler likewise returns an (empty) batch — its "Invalid output format."
throw is unreachable dead code after an early return. -/
theorem C2_no_classification_error :
    HEICHandler.doConvert { name := "heic2any", ready := true, supportedFormats := [] }
        heicStubEnv [{ name := "a.png", bytes := [9, 9] }] pngFmt jpegFmt
      = Except.ok [{ name := "a.png", bytes := [9, 9] }]
    ∧ aniDoConvert { supportedFormats := none, ready := true }
        [{ name := "a.png", bytes := [9, 9] }] pngFmt jpegFmt
      = Except.ok [] := ⟨rfl, rfl⟩

/-! ### Claim C3 -/

/-- C3 counterexample: the HEIC handler converts even when its readiness
flag is false — a passthrough request on a non-ready handler returns an
output batch rather than failing. -/
theorem C3_counterexample :
    HEICHandler.doConvert { name := "heic2any", ready := false, supportedFormats := [] }
        heicStubEnv [{ name := "a.heic", bytes := [1] }] heicFmt heifFmt
      = Except.ok [{ name := "a.heic", bytes := [1] }] := rfl

/-- C3 (amended): only the meyda unit enforces the readiness gate — its
convert throws "Handler not initialized!" whenever `ready` is false; the
HEIC unit never consults its readiness flag (its convert result is
identical with the flag cleared or set), and the ANI unit returns the
empty batch regardless of readiness. -/
theorem C3_readiness_gate (env : MeydaEnv) (s : MeydaState) (files : List FileData)
    (inF outF : FileFormat) (hname : String) (hb : Bool) (hsf : List FileFormat)
    (henv : HeicEnv) (fs2 : List FileData) (i2 o2 : FileFormat) (s3 : AniState)
    (h : s.ready = false) :
    meydaDoConvert env s files inF outF = Except.error "Handler not initialized!"
    ∧ HEICHandler.doConvert { name := hname, ready := hb, supportedFormats := hsf } henv fs2 i2 o2
        = HEICHandler.doConvert { name := hname, ready := true, supportedFormats := hsf } henv fs2 i2 o2
    ∧ aniDoConvert s3 fs2 i2 o2 = Except.ok [] := by
  refine ⟨?_, rfl, rfl⟩
  simp [meydaDoConvert, h]

/-- C3 witness: the amended readiness theorem applied at the meyda
handler's freshly constructed (unprobed) state. -/
theorem C3_readiness_gate_witness :
    meydaDoConvert meydaStubEnv meydaInitialState [{ name := "x.wav", bytes := [0] }]
        wavFormat meydaPngFormat
      = Except.error "Handler not initialized!"
    ∧ HEICHandler.doConvert { name := "heic2any", ready := false, supportedFormats := [] }
        heicStubEnv [] heicFmt pngFmt
        = HEICHandler.doConvert { name := "heic2any", ready := true, supportedFormats := [] }
        heicStubEnv [] heicFmt pngFmt
    ∧ aniDoConvert { supportedFormats := none, ready := false } [] heicFmt pngFmt
      = Except.ok [] :=
  C3_readiness_gate meydaStubEnv meydaInitialState [{ name := "x.wav", bytes := [0] }]
    wavFormat meydaPngFormat "heic2any" false [] heicStubEnv [] heicFmt pngFmt
    { supportedFormats := none, ready := false } rfl

/-! ### Claim C4 -/

/-- C4: when the decode capability produces N > 1 result buffers for an
input file, the decode branch emits exactly N output records, the i-th
(0-based) named `<base>_<NNN>.<outputExtension>` with `NNN` the 1-based
zero-padded width-3 sequence number `padStart3 (i+1)`, carrying frame i's
bytes — i.e. source order is preserved. -/
theorem C4_fanout_naming (self : HEICHandler) (env : HeicEnv) (f : FileData)
    (inF outF : FileFormat) (r : Blob ⊕ List Blob) (bs : List Blob)
    (hi : isHeicKey inF.internal = true) (ho : isHeicKey outF.internal = false)
    (h1 : env.heic2any { bytes := f.bytes, type := inF.mime } outF.mime (92 / 100)
            = Except.ok r)
    (h2 : heicResultBlobs r = bs) (hN : 1 < bs.length) :
    self.doConvert env [f] inF outF
      = Except.ok (bs.enum.map fun p =>
          { name := stripHeicExt f.name ++ "_" ++ padStart3 (toString (p.1 + 1)) ++ "."
                      ++ outF.extension,
            bytes := p.2.bytes })
    ∧ (bs.enum.map fun p =>
          ({ name := stripHeicExt f.name ++ "_" ++ padStart3 (toString (p.1 + 1)) ++ "."
                      ++ outF.extension,
             bytes := p.2.bytes } : FileData)).length = bs.length := by
  have hb : ¬ bs.length = 1 := by omega
  constructor
  · simp [HEICHandler.doConvert, hi, ho, decodeHeic, decodeOneHeic, h1, h2, hb]
    rfl
  · simp

/-- An environment whose decode capability returns three frames. -/
def heicFanoutEnv : HeicEnv :=
  { heic2any := fun _ _ _ => Except.ok (Sum.inr
      [{ bytes := [1], type := "image/png" }, { bytes := [2], type := "image/png" },
       { bytes := [3], type := "image/png" }]),
    createImageBitmap := fun _ => Except.error "unused",
    getContext2d := none,
    toBlob := fun _ _ _ => none }

/-- C4 witness: a `photo.heic` input yielding 3 png frames is fanned out
to `photo_001.png`, `photo_002.png`, `photo_003.png`, in source order. -/
theorem C4_fanout_naming_witness :
    HEICHandler.doConvert { name := "heic2any", ready := true, supportedFormats := [] }
        heicFanoutEnv [{ name := "photo.heic", bytes := [7] }] heicFmt pngFmt
      = Except.ok [{ name := "photo_001.png", bytes := [1] },
                   { name := "photo_002.png", bytes := [2] },
                   { name := "photo_003.png", bytes := [3] }] := by
  have h := C4_fanout_naming { name := "heic2any", ready := true, supportedFormats := [] }
    heicFanoutEnv { name := "photo.heic", bytes := [7] } heicFmt pngFmt
    (Sum.inr [{ bytes := [1], type := "image/png" }, { bytes := [2], type := "image/png" },
              { bytes := [3], type := "image/png" }])
    [{ bytes := [1], type := "image/png" }, { bytes := [2], type := "image/png" },
     { bytes := [3], type := "image/png" }]
    rfl rfl rfl rfl (by decide)
  exact h.1

/-! ### Claim C5 -/

/-- An environment whose audio decode succeeds with an empty channel and
whose canvas encode returns a small blob. -/
def meydaOkEnv : MeydaEnv :=
  { canPlay := fun _ => true, getContext2d := some (),
    decodeAudioData := fun _ => Except.ok { sampleRate := 44100, channel0 := [] },
    spectrumOf := fun _ => none, toBlob := fun _ _ => some [5] }

/-- C5 counterexample: converting the single-output input `a.b.wav`
through the meyda unit yields the name `a.png` — everything after the
FIRST dot is discarded — whereas the claim (strip only the known
extension, preserve interior dots) requires `a.b.png`. -/
theorem C5_counterexample :
    meydaDoConvert meydaOkEnv meydaReadyState [{ name := "a.b.wav", bytes := [0] }]
        wavFormat meydaPngFormat
      = Except.ok [{ name := "a.png", bytes := [5] }]
    ∧ "a.png" ≠ "a.b.png" := by
  exact ⟨rfl, by decide⟩

/-- C5 (amended): in the HEIC decode branch a single-buffer result is
named `<base>.<outputExtension>` where `<base>` strips only the trailing
known `.heic`/`.heif` extension (interior dots preserved, e.g.
`my.photo.heic` gives base `my.photo`); in the meyda unit, however, every
output is named `<head>.<outputExtension>` where `<head>` is the input
name truncated at its FIRST dot, so interior dots are NOT preserved
there. -/
theorem C5_single_result_naming (self : HEICHandler) (env : HeicEnv) (f : FileData)
    (inF outF : FileFormat) (r : Blob ⊕ List Blob) (b : Blob)
    (env2 : MeydaEnv) (outF2 : FileFormat) (f2 : FileData) (ad : AudioData)
    (cv : CanvasData) (bts : List Nat)
    (hi : isHeicKey inF.internal = true) (ho : isHeicKey outF.internal = false)
    (h1 : env.heic2any { bytes := f.bytes, type := inF.mime } outF.mime (92 / 100)
            = Except.ok r)
    (h2 : heicResultBlobs r = [b])
    (hd : env2.decodeAudioData f2.bytes = Except.ok ad)
    (hc : meydaCanvas env2 ad.channel0 = Except.ok cv)
    (ht : env2.toBlob cv outF2.mime = some bts) :
    self.doConvert env [f] inF outF
      = Except.ok [{ name := stripHeicExt f.name ++ "." ++ outF.extension, bytes := b.bytes }]
    ∧ stripHeicExt "my.photo.heic" = "my.photo"
    ∧ meydaConvertOne env2 outF2 f2
        = Except.ok { name := jsSplitDotHead f2.name ++ "." ++ outF2.extension, bytes := bts } := by
  refine ⟨?_, by decide, ?_⟩
  · simp [HEICHandler.doConvert, hi, ho, decodeHeic, decodeOneHeic, h1, h2]
    rfl
  · simp [meydaConvertOne, hd, hc, ht]

/-- An environment whose decode capability returns a single jpeg frame. -/
def heicSingleEnv : HeicEnv :=
  { heic2any := fun _ _ _ => Except.ok (Sum.inl { bytes := [4], type := "image/jpeg" }),
    createImageBitmap := fun _ => Except.error "unused",
    getContext2d := none,
    toBlob := fun _ _ _ => none }

/-- C5 witness: `photo.heic` with one decoded frame into jpeg yields
`photo.jpeg`; the meyda side names `tune.wav`'s output `tune.png`. -/
theorem C5_single_result_naming_witness :
    HEICHandler.doConvert { name := "heic2any", ready := true, supportedFormats := [] }
        heicSingleEnv [{ name := "photo.heic", bytes := [0] }] heicFmt jpegFmt
      = Except.ok [{ name := "photo.jpeg", bytes := [4] }]
    ∧ stripHeicExt "my.photo.heic" = "my.photo"
    ∧ meydaConvertOne meydaOkEnv meydaPngFormat { name := "tune.wav", bytes := [0] }
        = Except.ok { name := "tune.png", bytes := [5] } := by
  have h := C5_single_result_naming
    { name := "heic2any", ready := true, supportedFormats := [] } heicSingleEnv
    { name := "photo.heic", bytes := [0] } heicFmt jpegFmt
    (Sum.inl { bytes := [4], type := "image/jpeg" }) { bytes := [4], type := "image/jpeg" }
    meydaOkEnv meydaPngFormat { name := "tune.wav", bytes := [0] }
    { sampleRate := 44100, channel0 := [] } { width := 0, height := 1024, columns := [] } [5]
    rfl rfl rfl rfl rfl rfl rfl
  exact ⟨h.1, h.2.1, h.2.2⟩

/-! ### Claim C6 -/

/-- A meyda environment whose audio decode rejects. -/
def meydaDecodeFailEnv : MeydaEnv :=
  { canPlay := fun _ => true, getContext2d := some (),
    decodeAudioData := fun _ => Except.error "bad",
    spectrumOf := fun _ => none, toBlob := fun _ _ => none }

/-- C6 counterexample: when the meyda unit's decode capability rejects
`song.wav` with cause "bad", convert fails with exactly that raw cause —
an error message that does NOT contain the input file's name. -/
theorem C6_counterexample :
    meydaDoConvert meydaDecodeFailEnv meydaReadyState [{ name := "song.wav", bytes := [1] }]
        wavFormat meydaPngFormat
      = Except.error "bad"
    ∧ ¬ ("song.wav".data <:+: ("bad" : String).data) := by
  exact ⟨rfl, by decide⟩

/-- C6 (amended): the HEIC decode branch wraps a rejected input in an
error whose message contains both the input file's name and the
underlying cause (and the batch is aborted, not retried); the meyda
unit, by contrast, propagates the decode capability's rejection verbatim,
without attaching the file's name. -/
theorem C6_decode_failure_surfacing (self : HEICHandler) (env : HeicEnv) (f : FileData)
    (inF outF : FileFormat) (e : String)
    (env2 : MeydaEnv) (s : MeydaState) (f2 : FileData) (inF2 outF2 : FileFormat) (e2 : String)
    (hi : isHeicKey inF.internal = true) (ho : isHeicKey outF.internal = false)
    (h1 : env.heic2any { bytes := f.bytes, type := inF.mime } outF.mime (92 / 100)
            = Except.error e)
    (hg : (!s.ready || s.audioContext.isNone || s.canvas.isNone || s.ctx.isNone) = false)
    (hd : env2.decodeAudioData f2.bytes = Except.error e2) :
    (self.doConvert env [f] inF outF
        = Except.error ("Could not decode HEIC/HEIF file \"" ++ f.name ++ "\": " ++ e)
      ∧ f.name.data <:+: ("Could not decode HEIC/HEIF file \"" ++ f.name ++ "\": " ++ e).data
      ∧ e.data <:+: ("Could not decode HEIC/HEIF file \"" ++ f.name ++ "\": " ++ e).data)
    ∧ meydaDoConvert env2 s [f2] inF2 outF2 = Except.error e2 := by
  refine ⟨⟨?_, ?_, ?_⟩, ?_⟩
  · simp [HEICHandler.doConvert, hi, ho, decodeHeic, decodeOneHeic, h1]
    rfl
  · exact ⟨"Could not decode HEIC/HEIF file \"".data, ("\": " ++ e).data,
      by simp [String.data_append, List.append_assoc]⟩
  · exact ⟨("Could not decode HEIC/HEIF file \"" ++ f.name ++ "\": ").data, [],
      by simp [String.data_append, List.append_assoc]⟩
  · simp [meydaDoConvert, hg, meydaConvertAll, meydaConvertOne, hd]
    rfl

/-- A HEIC environment whose decode capability rejects. -/
def heicDecodeFailEnv : HeicEnv :=
  { heic2any := fun _ _ _ => Except.error "truncated box",
    createImageBitmap := fun _ => Except.error "unused",
    getContext2d := none,
    toBlob := fun _ _ _ => none }

/-- C6 witness: the amended theorem applied at concrete failing decodes
on both units. -/
theorem C6_decode_failure_surfacing_witness :
    (HEICHandler.doConvert { name := "heic2any", ready := true, supportedFormats := [] }
        heicDecodeFailEnv [{ name := "img.heic", bytes := [1] }] heicFmt pngFmt
        = Except.error ("Could not decode HEIC/HEIF file \"" ++ "img.heic" ++ "\": " ++ "truncated box")
      ∧ "img.heic".data <:+: ("Could not decode HEIC/HEIF file \"" ++ "img.heic" ++ "\": " ++ "truncated box").data
      ∧ "truncated box".data <:+: ("Could not decode HEIC/HEIF file \"" ++ "img.heic" ++ "\": " ++ "truncated box").data)
    ∧ meydaDoConvert meydaDecodeFailEnv meydaReadyState [{ name := "song.wav", bytes := [2] }]
        wavFormat meydaPngFormat
      = Except.error "bad" :=
  C6_decode_failure_surfacing
    { name := "heic2any", ready := true, supportedFormats := [] } heicDecodeFailEnv
    { name := "img.heic", bytes := [1] } heicFmt pngFmt "truncated box"
    meydaDecodeFailEnv meydaReadyState { name := "song.wav", bytes := [2] }
    wavFormat meydaPngFormat "bad"
    rfl rfl rfl rfl rfl

/-! ### Claim C7 -/

/-- A meyda environment whose decode succeeds but whose canvas encode
declines (`toBlob` yields `null`). -/
def meydaBlobFailEnv : MeydaEnv :=
  { canPlay := fun _ => true, getContext2d := some (),
    decodeAudioData := fun _ => Except.ok { sampleRate := 8000, channel0 := [] },
    spectrumOf := fun _ => none, toBlob := fun _ _ => none }

/-- C7 counterexample: when the meyda unit's rendering capability
declines to produce bytes, convert fails with the generic message
"Canvas output failed." which names no concrete fallback format — none
of the unit's format tags (png/jpeg/jpg/webp, in either case) occur in
it — contradicting the claim for this encode path. -/
theorem C7_counterexample :
    meydaDoConvert meydaBlobFailEnv meydaReadyState [{ name := "a.wav", bytes := [1] }]
        wavFormat meydaPngFormat
      = Except.error "Canvas output failed."
    ∧ ¬ ("png".data <:+: "Canvas output failed.".data)
    ∧ ¬ ("PNG".data <:+: "Canvas output failed.".data)
    ∧ ¬ ("jpeg".data <:+: "Canvas output failed.".data)
    ∧ ¬ ("JPEG".data <:+: "Canvas output failed.".data)
    ∧ ¬ ("jpg".data <:+: "Canvas output failed.".data)
    ∧ ¬ ("webp".data <:+: "Canvas output failed.".data)
    ∧ ¬ ("WebP".data <:+: "Canvas output failed.".data) := by
  exact ⟨rfl, by decide, by decide, by decide, by decide, by decide, by decide, by decide⟩

set_option maxRecDepth 8192 in
/-- C7 (amended): in the HEIC encode branch, a declined host render
fails with the fixed descriptive message — which states that HEIC/HEIF
encoding is not supported and names the concrete fallback formats PNG
and JPEG — and no output buffer (empty or otherwise) is returned; the
meyda unit's declined render, by contrast, fails with the generic
"Canvas output failed." naming no fallback. -/
theorem C7_encode_unavailable (self : HEICHandler) (env : HeicEnv) (f : FileData)
    (inF outF : FileFormat) (bmp : ImageBitmap) (u : Unit)
    (env2 : MeydaEnv) (outF2 : FileFormat) (f2 : FileData) (ad : AudioData) (cv : CanvasData)
    (hi : isHeicKey inF.internal = false) (ho : isHeicKey outF.internal = true)
    (hbm : env.createImageBitmap { bytes := f.bytes, type := inF.mime } = Except.ok bmp)
    (hctx : env.getContext2d = some u)
    (htb : env.toBlob bmp outF.mime (92 / 100) = none)
    (hd : env2.decodeAudioData f2.bytes = Except.ok ad)
    (hc : meydaCanvas env2 ad.channel0 = Except.ok cv)
    (ht : env2.toBlob cv outF2.mime = none) :
    (self.doConvert env [f] inF outF = Except.error heicEncodeUnsupportedMsg
      ∧ "PNG".data <:+: heicEncodeUnsupportedMsg.data
      ∧ "JPEG".data <:+: heicEncodeUnsupportedMsg.data
      ∧ "encoding is not supported".data <:+: heicEncodeUnsupportedMsg.data)
    ∧ meydaConvertOne env2 outF2 f2 = Except.error "Canvas output failed." := by
  refine ⟨⟨?_, by decide, by decide, by decide⟩, ?_⟩
  · simp [HEICHandler.doConvert, hi, ho, encodeHeic, encodeOneHeic, hbm, hctx, htb]
    rfl
  · simp [meydaConvertOne, hd, hc, ht]

/-- A HEIC environment whose bitmap decode succeeds but whose canvas
encode declines. -/
def heicEncodeFailEnv : HeicEnv :=
  { heic2any := fun _ _ _ => Except.error "unused",
    createImageBitmap := fun _ => Except.ok { width := 2, height := 2, data := [0, 0] },
    getContext2d := some (),
    toBlob := fun _ _ _ => none }

/-- C7 witness: the amended theorem applied at a concrete declined
encode on both units. -/
theorem C7_encode_unavailable_witness :
    (HEICHandler.doConvert { name := "heic2any", ready := true, supportedFormats := [] }
        heicEncodeFailEnv [{ name := "pic.png", bytes := [3] }] pngFmt heicFmt
        = Except.error heicEncodeUnsupportedMsg
      ∧ "PNG".data <:+: heicEncodeUnsupportedMsg.data
      ∧ "JPEG".data <:+: heicEncodeUnsupportedMsg.data
      ∧ "encoding is not supported".data <:+: heicEncodeUnsupportedMsg.data)
    ∧ meydaConvertOne meydaBlobFailEnv meydaPngFormat { name := "b.wav", bytes := [1] }
      = Except.error "Canvas output failed." :=
  C7_encode_unavailable
    { name := "heic2any", ready := true, supportedFormats := [] } heicEncodeFailEnv
    { name := "pic.png", bytes := [3] } pngFmt heicFmt
    { width := 2, height := 2, data := [0, 0] } ()
    meydaBlobFailEnv meydaPngFormat { name := "b.wav", bytes := [1] }
    { sampleRate := 8000, channel0 := [] } { width := 0, height := 1024, columns := [] }
    rfl rfl rfl rfl rfl rfl rfl rfl

/-! ### Claim C8 -/

/-- A runtime in which only `audio/wav` is playable and context
acquisition succeeds, so the meyda probe completes successfully. -/
def c8Env : MeydaEnv :=
  { canPlay := fun m => m == "audio/wav", getContext2d := some (),
    decodeAudioData := fun _ => Except.error "unused",
    spectrumOf := fun _ => none, toBlob := fun _ _ => none }

/-- C8 counterexample: the meyda probe completes successfully (no error
thrown), yet running it a second time does NOT leave the capability set
unchanged — the playable wav descriptor is appended again, so the set
gains a duplicate. -/
theorem C8_counterexample :
    (meydaInit c8Env meydaInitialState).2 = none
    ∧ (meydaInit c8Env (meydaInit c8Env meydaInitialState).1).1.supportedFormats
        ≠ (meydaInit c8Env meydaInitialState).1.supportedFormats := by
  exact ⟨rfl, by decide⟩

/-- C8 (amended): the ANI and HEIC probes are idempotent (a second run
leaves the whole handler state, capability set included, unchanged), but
the meyda probe appends the playable audio descriptors unconditionally
on EVERY run — the capability set after any run equals the previous set
extended by the probed audio descriptors — so it is only safe to call
once and a second call duplicates entries. -/
theorem C8_probe_idempotence (s : AniState) (h : HEICHandler) (env : MeydaEnv)
    (s2 : MeydaState) :
    aniInit (aniInit s) = aniInit s
    ∧ heicInit (heicInit h) = heicInit h
    ∧ (meydaInit env s2).1.supportedFormats = s2.supportedFormats ++ meydaProbedAudio env := by
  refine ⟨rfl, rfl, ?_⟩
  unfold meydaInit
  cases env.getContext2d <;> rfl

/-! ### Claim C9 -/

/-- Every descriptor the meyda probe can append is an audio input: the
`from` direction is enabled, the `to` direction is not, its mime is an
audio (not image) one, and its own `canPlayType` probe succeeded. -/
theorem meydaProbedAudio_mem (env : MeydaEnv) (d : FileFormat)
    (hd : d ∈ meydaProbedAudio env) :
    d.«from» = true ∧ d.«to» = false ∧ ("image/".data <+: d.mime.data → False)
    ∧ ("audio/".data <+: d.mime.data) ∧ env.canPlay d.mime = true := by
  unfold meydaProbedAudio at hd
  rcases List.mem_append.1 hd with h | h'
  · split at h
    · next hc =>
        rw [List.mem_singleton] at h
        subst h
        exact ⟨rfl, rfl, by decide, by decide, hc⟩
    · simp at h
  · rcases List.mem_append.1 h' with h | h'
    · split at h
      · next hc =>
          rw [List.mem_singleton] at h
          subst h
          exact ⟨rfl, rfl, by decide, by decide, hc⟩
      · simp at h
    · rcases List.mem_append.1 h' with h | h
      · split at h
        · next hc =>
            rw [List.mem_singleton] at h
            subst h
            exact ⟨rfl, rfl, by decide, by decide, hc⟩
        · simp at h
      · split at h
        · next hc =>
            rw [List.mem_singleton] at h
            subst h
            exact ⟨rfl, rfl, by decide, by decide, hc⟩
        · simp at h

/-- C9: after the meyda probe runs on the freshly constructed state,
every descriptor whose mime is an image one has `to = true` and
`from = false`, every descriptor whose mime is an audio one has
`from = true` and `to = false` and is present only because its runtime
playability probe succeeded; in particular no capability ever allows
image input or audio output, so image-to-audio conversion is never
declared. -/
theorem C9_capability_directionality (env : MeydaEnv) (s : MeydaState) (e : Option String)
    (hinit : meydaInit env meydaInitialState = (s, e)) (d : FileFormat)
    (hd : d ∈ s.supportedFormats) :
    (("image/".data <+: d.mime.data) → d.«to» = true ∧ d.«from» = false)
    ∧ (("audio/".data <+: d.mime.data) →
        d.«from» = true ∧ d.«to» = false ∧ env.canPlay d.mime = true) := by
  have hs : s.supportedFormats = meydaStaticFormats ++ meydaProbedAudio env := by
    have h1 : s = (meydaInit env meydaInitialState).1 := by rw [hinit]
    rw [h1]
    unfold meydaInit
    cases env.getContext2d <;> rfl
  rw [hs] at hd
  rcases List.mem_append.1 hd with h | h
  · have : d = meydaPngFormat ∨ d = meydaJpegFormat ∨ d = meydaWebpFormat := by
      simpa [meydaStaticFormats] using h
    rcases this with rfl | rfl | rfl
    · exact ⟨fun _ => ⟨rfl, rfl⟩, fun hx => absurd hx (by decide)⟩
    · exact ⟨fun _ => ⟨rfl, rfl⟩, fun hx => absurd hx (by decide)⟩
    · exact ⟨fun _ => ⟨rfl, rfl⟩, fun hx => absurd hx (by decide)⟩
  · have h5 := meydaProbedAudio_mem env d h
    exact ⟨fun hx => absurd hx h5.2.2.1, fun _ => ⟨h5.1, h5.2.1, h5.2.2.2.2⟩⟩

/-- A runtime in which every probed audio format is playable. -/
def c9Env : MeydaEnv :=
  { canPlay := fun _ => true, getContext2d := some (),
    decodeAudioData := fun _ => Except.error "unused",
    spectrumOf := fun _ => none, toBlob := fun _ _ => none }

/-- C9 witness: the directionality theorem applied to the wav descriptor
found in the capability set after a successful probe. -/
theorem C9_capability_directionality_witness :
    (("image/".data <+: wavFormat.mime.data) → wavFormat.«to» = true ∧ wavFormat.«from» = false)
    ∧ (("audio/".data <+: wavFormat.mime.data) →
        wavFormat.«from» = true ∧ wavFormat.«to» = false ∧ c9Env.canPlay wavFormat.mime = true) :=
  C9_capability_directionality c9Env (meydaInit c9Env meydaInitialState).1
    (meydaInit c9Env meydaInitialState).2 rfl wavFormat (by decide)
